import Mathlib

/-!
Verification of `src/source/core/woogeen_base/VideoFramePacketizer.cpp`
(owt-server). The packetizer's state and operations are shallowly embedded:
machine integers become `Nat` (all quantities involved are small and
non-negative on every code path modelled), side effects on the external
collaborators (RTP engine, bitrate controller, downstream sink) become an
explicit event trace, and the externally owned collaborators' responses are
parameters.
-/

namespace VideoFramePacketizer

/-- Frame formats referenced by VideoFramePacketizer.cpp (the `FrameFormat`
enum is declared in a header outside src/; only the constants the .cpp file
uses are modelled). -/
inductive FrameFormat
  | FRAME_FORMAT_UNKNOWN
  | FRAME_FORMAT_I420
  | FRAME_FORMAT_VP8
  | FRAME_FORMAT_VP9
  | FRAME_FORMAT_H264
  | FRAME_FORMAT_H265
deriving DecidableEq, Repr

/-- Embedding of `woogeen_base::Frame` as used by `onFrame`: the borrowed
`payload` buffer of `length` bytes is modelled as the list of its bytes, and
the `additionalInfo.video` fields are flattened in. -/
structure Frame where
  format : FrameFormat
  payload : List Nat
  timeStamp : Nat
  isKeyFrame : Bool
  width : Nat
  height : Nat
deriving DecidableEq, Repr

/-- The bitrate controller's state as set by `SetStartBitrate` and
`SetMinMaxBitrate` (all in bps). -/
structure BitrateSettings where
  startBps : Nat
  minBps : Nat
  maxBps : Nat
deriving DecidableEq, Repr

/-- The downstream `erizo::MediaSink`, reduced to the one property the
packetizer's code observes: whether `getFeedbackSource()` is non-null. -/
structure MediaSink where
  hasFeedbackSource : Bool
deriving DecidableEq, Repr

/-- Observable calls into the external collaborators. -/
inductive Event
  | FeedbackKeyFrameRequest
  | SendOutgoingData (payloadType timeStamp captureTimeMs frameLength : Nat)
      (frag : Option (List (Nat × Nat)))
  | RegisterSendPayload (fmt : FrameFormat)
  | SetSinkSSRC (ssrc : Nat)
  | SetFeedbackSink (wired : Bool)
  | DeliverVideoData (len : Nat)
deriving DecidableEq, Repr

/-- Source line 31: `static const int TRANSMISSION_MAXBITRATE_MULTIPLIER = 2`. -/
def TRANSMISSION_MAXBITRATE_MULTIPLIER : Nat := 2

/-- RTP payload-type constant for VP8; declared in a header outside src/,
value symbolic (no claim depends on it). -/
def VP8_90000_PT : Nat := 100

/-- RTP payload-type constant for VP9 (header outside src/). -/
def VP9_90000_PT : Nat := 101

/-- RTP payload-type constant for H264 (header outside src/). -/
def H264_90000_PT : Nat := 127

/-- RTP payload-type constant for H265 (header outside src/). -/
def H265_90000_PT : Nat := 121

/-- The packetizer's own mutable state: the member variables of
`VideoFramePacketizer` that the .cpp file reads or writes, plus the bitrate
controller's bounds (the controller is externally owned but its bounds are
written only by this component) and the RTP engine's SSRC (read-only here). -/
structure PacketizerState where
  m_enabled : Bool
  m_keyFrameArrived : Bool
  m_frameFormat : FrameFormat
  m_frameWidth : Nat
  m_frameHeight : Nat
  videoSink_ : Option MediaSink
  bitrate : BitrateSettings
  ssrc : Nat
deriving DecidableEq, Repr

/-- State after the constructor and `init` (lines 35-47 and 244-274):
enabled, gate closed, unknown format, zero geometry, no sink, and the
initial bitrate push `SetStartBitrate(300*1000); SetMinMaxBitrate(0, 0)`. -/
def initialState (ssrc : Nat) : PacketizerState :=
  { m_enabled := true
    m_keyFrameArrived := false
    m_frameFormat := FrameFormat.FRAME_FORMAT_UNKNOWN
    m_frameWidth := 0
    m_frameHeight := 0
    videoSink_ := none
    bitrate := { startBps := 300 * 1000, minBps := 0, maxBps := 0 }
    ssrc := ssrc }

/-- Length of the Annex-B start code beginning at the head of the list, if
any: 4 for `00 00 00 01`, 3 for `00 00 01`. -/
def startCodeLen : List Nat → Option Nat
  | 0 :: 0 :: 0 :: 1 :: _ => some 4
  | 0 :: 0 :: 1 :: _ => some 3
  | _ => none

/-- Position and length of the first start code at or after the head of the
buffer; `i` is the absolute index of the head. -/
def findStartCode : List Nat → Nat → Option (Nat × Nat)
  | [], _ => none
  | b :: rest, i =>
      match startCodeLen (b :: rest) with
      | some sz => some (i, sz)
      | none => findStartCode rest (i + 1)

/-- Modelled from the spec: `findNALU` lives in `MediaUtilities.h`, which is
not under src/; §4.2 of the spec gives its contract. It scans the buffer for
the first 3- or 4-byte start code — a buffer with none is malformed and the
scan fails (the C++ function returns a negative length; modelled as `none`) —
and on success returns `(nalu_start_offset, nalu_found_length)`: the offset
just past the start code and the length of the NAL unit, which extends to the
next start code or to the end of the buffer (zero-length NAL units from
back-to-back start codes are recorded). -/
def findNALU (buf : List Nat) : Option (Nat × Nat) :=
  match findStartCode buf 0 with
  | none => none
  | some (i, sz) =>
      match findStartCode (buf.drop (i + sz)) 0 with
      | none => some (i + sz, buf.length - (i + sz))
      | some (j, _) => some (i + sz, j)

/-- Embedding of the `while (buffer_length > 0)` NAL-scan loop of `onFrame`
(lines 212-226): `pos` is `buffer_start - frame.payload`, `acc` the
fragmentation entries built so far, and the returned flag records whether
`findNALU` reported an error (`nalu_found_length < 0`), on which the C++
loop does `break`. Each successful iteration advances `pos` by at least the
start-code length, so the loop runs at most `payload.length` times; the
structural `fuel` argument bounds the recursion and is never exhausted when
called with `payload.length + 1`. -/
def scanLoop : Nat → List Nat → Nat → List (Nat × Nat) → List (Nat × Nat) × Bool
  | 0, _, _, acc => (acc, false)
  | fuel + 1, payload, pos, acc =>
      if payload.length ≤ pos then (acc, false)
      else
        match findNALU (payload.drop pos) with
        | none => (acc, true)
        | some (s, l) => scanLoop fuel payload (pos + s + l) (acc ++ [(pos + s, l)])

/-- The full NAL scan of a frame payload: the fragmentation map and whether a
scan error occurred. -/
def scanNALUs (payload : List Nat) : List (Nat × Nat) × Bool :=
  scanLoop (payload.length + 1) payload 0 []

/-- Result of `setSendCodec`: the returned Bool, the state after the call,
the calls made into the RTP engine, and the value of the
`assert(frameFormat == m_frameFormat)` expression (line 90). The assertion
is compiled out under NDEBUG; execution continues regardless, so the model
records the predicate instead of aborting. -/
structure SetSendCodecResult where
  ret : Bool
  st : PacketizerState
  evs : List Event
  assertOk : Bool
deriving DecidableEq, Repr

/-- Embedding of `VideoFramePacketizer::setSendCodec` (lines 86-133).
`calcBitrate` is the resolution-to-kbps estimator from `MediaUtilities.h`
(not under src/), passed as a parameter. The C++ computes
`targetKbps = calcBitrate(w, h) * (fmt == VP8 ? 0.9 : 1)` in double and
truncates to uint32_t; the 0.9 scale is embedded as `9 * x / 10` in `Nat`
(exact for all magnitudes a bitrate estimate can take). `regOk` is the value
of `m_rtpRtcp && m_rtpRtcp->RegisterSendPayload(codec) != -1` (`m_rtpRtcp`
is non-null from construction on). For I420 and unknown formats the switch
returns false before any bitrate or registration call. -/
def setSendCodec (calcBitrate : Nat → Nat → Nat) (regOk : Bool)
    (st : PacketizerState) (frameFormat : FrameFormat) (width height : Nat) :
    SetSendCodecResult :=
  let aOk := decide (frameFormat = st.m_frameFormat)
  match frameFormat with
  | FrameFormat.FRAME_FORMAT_I420 =>
      { ret := false, st := st, evs := [], assertOk := aOk }
  | FrameFormat.FRAME_FORMAT_UNKNOWN =>
      { ret := false, st := st, evs := [], assertOk := aOk }
  | _ =>
      let targetKbps :=
        if frameFormat = FrameFormat.FRAME_FORMAT_VP8
        then 9 * calcBitrate width height / 10
        else calcBitrate width height
      let minKbps := targetKbps / 4
      let st1 := { st with bitrate :=
        { startBps := targetKbps * 1000
          minBps := minKbps * 1000
          maxBps := TRANSMISSION_MAXBITRATE_MULTIPLIER * targetKbps * 1000 } }
      { ret := regOk, st := st1,
        evs := [Event.RegisterSendPayload frameFormat], assertOk := aOk }

/-- Embedding of `VideoFramePacketizer::onFrame` (lines 165-235). Returns
the state after the call and the trace of calls into the collaborators.
`calcBitrate` and `regOk` parametrise the nested `setSendCodec` call (whose
return value line 190 ignores). -/
def onFrame (calcBitrate : Nat → Nat → Nat) (regOk : Bool)
    (st : PacketizerState) (frame : Frame) : PacketizerState × List Event :=
  if st.m_enabled = false then (st, [])
  else if st.m_keyFrameArrived = false ∧ frame.isKeyFrame = false then
    (st, [Event.FeedbackKeyFrameRequest])
  else
    let st1 :=
      if st.m_keyFrameArrived = false then { st with m_keyFrameArrived := true }
      else st
    let step2 :=
      if frame.format ≠ st1.m_frameFormat ∨ frame.width ≠ st1.m_frameWidth
          ∨ frame.height ≠ st1.m_frameHeight then
        let stc := { st1 with
          m_frameFormat := frame.format
          m_frameWidth := frame.width
          m_frameHeight := frame.height }
        let r := setSendCodec calcBitrate regOk stc frame.format frame.width frame.height
        (r.st, r.evs)
      else (st1, ([] : List Event))
    let st2 := step2.1
    let evs1 := step2.2
    match frame.format with
  | FrameFormat.FRAME_FORMAT_VP8 =>
      (st2, evs1 ++ [Event.SendOutgoingData VP8_90000_PT frame.timeStamp
        (frame.timeStamp / 90) frame.payload.length none])
  | FrameFormat.FRAME_FORMAT_VP9 =>
      (st2, evs1 ++ [Event.SendOutgoingData VP9_90000_PT frame.timeStamp
        (frame.timeStamp / 90) frame.payload.length none])
  | FrameFormat.FRAME_FORMAT_H264 =>
      (st2, evs1 ++ [Event.SendOutgoingData H264_90000_PT frame.timeStamp
        (frame.timeStamp / 90) frame.payload.length (some (scanNALUs frame.payload).1)])
  | FrameFormat.FRAME_FORMAT_H265 =>
      (st2, evs1 ++ [Event.SendOutgoingData H265_90000_PT frame.timeStamp
        (frame.timeStamp / 90) frame.payload.length (some (scanNALUs frame.payload).1)])
  | _ => (st2, evs1)

/-- Embedding of `VideoFramePacketizer::bindTransport` (lines 56-64). The
code assigns `videoSink_ = sink` and then unconditionally dereferences it
(`videoSink_->setVideoSinkSSRC(m_rtpRtcp->SSRC())`), so a null sink is
undefined behaviour, modelled as `none`. -/
def bindTransport (st : PacketizerState) (sink : Option MediaSink) :
    Option (PacketizerState × List Event) :=
  match sink with
  | none => none
  | some s =>
      some ({ st with videoSink_ := some s },
        Event.SetSinkSSRC st.ssrc ::
          (if s.hasFeedbackSource then [Event.SetFeedbackSink true] else []))

/-- Embedding of `VideoFramePacketizer::unbindTransport` (lines 66-75): a
no-op when no sink is bound; otherwise clears the sink's feedback sink (when
the sink has a feedback source) and nulls the binding. -/
def unbindTransport (st : PacketizerState) : PacketizerState × List Event :=
  match st.videoSink_ with
  | none => (st, [])
  | some s =>
      ({ st with videoSink_ := none },
        if s.hasFeedbackSource then [Event.SetFeedbackSink false] else [])

/-- Embedding of `VideoFramePacketizer::enable` (lines 77-84). -/
def enable (st : PacketizerState) (enabled : Bool) : PacketizerState × List Event :=
  let st1 := { st with m_enabled := enabled }
  if enabled then (st1, [Event.FeedbackKeyFrameRequest]) else (st1, [])

/-- Embedding of `VideoFramePacketizer::receiveRtpData` (lines 148-157):
forwards to the bound sink if present, else silently drops. -/
def receiveRtpData (st : PacketizerState) (len : Nat) : List Event :=
  match st.videoSink_ with
  | none => []
  | some _ => [Event.DeliverVideoData len]

/-- Embedding of `VideoFramePacketizer::sendFirPacket` (lines 237-242). -/
def sendFirPacket : List Event := [Event.FeedbackKeyFrameRequest]

/-- Embedding of `VideoFramePacketizer::OnReceivedIntraFrameRequest`
(lines 135-140). -/
def onReceivedIntraFrameRequest : List Event := [Event.FeedbackKeyFrameRequest]

/-- Embedding of `VideoFramePacketizer::close` (lines 276-290): unbinds the
sink (inline copy of unbindTransport's body) and deregisters the module. -/
def close (st : PacketizerState) : PacketizerState × List Event :=
  match st.videoSink_ with
  | none => (st, [])
  | some s =>
      ({ st with videoSink_ := none },
        if s.hasFeedbackSource then [Event.SetFeedbackSink false] else [])

/-- One operation on a live packetizer instance, for reasoning about
arbitrary call sequences. `bind` carries a non-null sink (a null sink is
undefined behaviour, see `bindTransport`). -/
inductive Op
  | opOnFrame (frame : Frame) (regOk : Bool)
  | opEnable (flag : Bool)
  | opSetSendCodec (fmt : FrameFormat) (w h : Nat) (regOk : Bool)
  | opBindTransport (sink : MediaSink)
  | opUnbindTransport
  | opSendFirPacket
  | opOnReceivedIntraFrameRequest
  | opReceiveRtpData (len : Nat)
  | opDeliverFeedback
  | opOnNetworkChanged
  | opClose

/-- State transition of one operation (events dropped). `deliverFeedback`
and `OnNetworkChanged` touch no member state; `OnNetworkChanged` (lines
159-163) is intentionally inert. -/
def stepOp (calcBitrate : Nat → Nat → Nat) (st : PacketizerState) : Op → PacketizerState
  | Op.opOnFrame frame regOk => (onFrame calcBitrate regOk st frame).1
  | Op.opEnable flag => (enable st flag).1
  | Op.opSetSendCodec fmt w h regOk => (setSendCodec calcBitrate regOk st fmt w h).st
  | Op.opBindTransport s =>
      match bindTransport st (some s) with
      | some r => r.1
      | none => st
  | Op.opUnbindTransport => (unbindTransport st).1
  | Op.opSendFirPacket => st
  | Op.opOnReceivedIntraFrameRequest => st
  | Op.opReceiveRtpData _ => st
  | Op.opDeliverFeedback => st
  | Op.opOnNetworkChanged => st
  | Op.opClose => (close st).1

/-- Run a sequence of operations. -/
def run (calcBitrate : Nat → Nat → Nat) (st : PacketizerState) (ops : List Op) :
    PacketizerState :=
  ops.foldl (stepOp calcBitrate) st

/-- The formats `setSendCodec`'s switch accepts (everything except I420 and
unknown). -/
def isSupported (f : FrameFormat) : Bool :=
  match f with
  | FrameFormat.FRAME_FORMAT_VP8 => true
  | FrameFormat.FRAME_FORMAT_VP9 => true
  | FrameFormat.FRAME_FORMAT_H264 => true
  | FrameFormat.FRAME_FORMAT_H265 => true
  | _ => false

/-- The `targetKbps` computation of `setSendCodec` (line 122), abstracted
over the estimator. -/
def targetKbpsOf (calcBitrate : Nat → Nat → Nat) (fmt : FrameFormat) (w h : Nat) : Nat :=
  if fmt = FrameFormat.FRAME_FORMAT_VP8
  then 9 * calcBitrate w h / 10
  else calcBitrate w h

end VideoFramePacketizer

namespace VideoFramePacketizer

/-- C1: while the packetizer is enabled and before the first key frame has
arrived, delivering a non-key frame makes no RTP send call, emits exactly
one key-frame-request feedback event, and leaves the state unchanged: the
frame is dropped. -/
theorem onFrame_pre_keyframe_drop (calcBitrate : Nat → Nat → Nat) (regOk : Bool)
    (st : PacketizerState) (frame : Frame)
    (hen : st.m_enabled = true) (hk : st.m_keyFrameArrived = false)
    (hnk : frame.isKeyFrame = false) :
    onFrame calcBitrate regOk st frame = (st, [Event.FeedbackKeyFrameRequest]) := by
  simp [onFrame, hen, hk, hnk]

/-- C1 witness: a fresh instance receiving a non-key H264 frame. -/
theorem onFrame_pre_keyframe_drop_witness :
    (initialState 7).m_enabled = true ∧ (initialState 7).m_keyFrameArrived = false ∧
    onFrame (fun _ _ => 500) true (initialState 7)
      { format := FrameFormat.FRAME_FORMAT_H264, payload := [0, 0, 1, 65], timeStamp := 900,
        isKeyFrame := false, width := 640, height := 480 }
      = (initialState 7, [Event.FeedbackKeyFrameRequest]) :=
  ⟨rfl, rfl, onFrame_pre_keyframe_drop _ _ _ _ rfl rfl rfl⟩

/-- C6: `setSendCodec` returns false exactly when the format is the I420
sentinel or unknown, or when the RTP engine rejects the payload
registration; it returns true only when registration succeeds for a
supported format. -/
theorem setSendCodec_ret_iff (calcBitrate : Nat → Nat → Nat) (regOk : Bool)
    (st : PacketizerState) (fmt : FrameFormat) (w h : Nat) :
    (setSendCodec calcBitrate regOk st fmt w h).ret = (isSupported fmt && regOk) := by
  cases fmt <;> simp [setSendCodec, isSupported]

/-- C10: `bindTransport` dereferences its argument unconditionally, so a
null sink is undefined behaviour (`none`); for every non-null sink the call
stores it, propagates the SSRC once, and wires the feedback sink exactly
when the sink exposes a feedback source — whereas `unbindTransport` and
`receiveRtpData` guard the unbound case. -/
theorem bindTransport_requires_sink (st : PacketizerState) (s : MediaSink) (n : Nat) :
    bindTransport st none = none ∧
    bindTransport st (some s) =
      some ({ st with videoSink_ := some s },
        Event.SetSinkSSRC st.ssrc ::
          (if s.hasFeedbackSource then [Event.SetFeedbackSink true] else [])) ∧
    unbindTransport { st with videoSink_ := none } = ({ st with videoSink_ := none }, []) ∧
    receiveRtpData { st with videoSink_ := none } n = [] :=
  ⟨rfl, rfl, rfl, rfl⟩

/-- C7: `unbindTransport` is idempotent — a second unbind is a no-op (same
state, no collaborator calls), as is unbinding when no sink is bound — and
rebinding a sink after an unbind re-propagates the SSRC and the feedback
wiring exactly once. -/
theorem unbind_idempotent_rebind_once (st : PacketizerState) (s : MediaSink) :
    unbindTransport (unbindTransport st).1 = ((unbindTransport st).1, []) ∧
    unbindTransport { st with videoSink_ := none } = ({ st with videoSink_ := none }, []) ∧
    bindTransport (unbindTransport st).1 (some s) =
      some ({ (unbindTransport st).1 with videoSink_ := some s },
        Event.SetSinkSSRC st.ssrc ::
          (if s.hasFeedbackSource then [Event.SetFeedbackSink true] else [])) := by
  refine ⟨?_, rfl, ?_⟩ <;> cases hv : st.videoSink_ <;> simp [unbindTransport, bindTransport, hv]

/-- C5: for every supported format and resolution, the bounds `setSendCodec`
pushes satisfy: the start (target) bitrate is the estimator's value scaled
by 0.9 for VP8 and unscaled otherwise, the max is twice the target, and the
min is the target kbps divided by 4. -/
theorem setSendCodec_bitrate_bounds (calcBitrate : Nat → Nat → Nat) (regOk : Bool)
    (st : PacketizerState) (fmt : FrameFormat) (w h : Nat)
    (hs : isSupported fmt = true) :
    (setSendCodec calcBitrate regOk st fmt w h).st.bitrate.startBps
        = targetKbpsOf calcBitrate fmt w h * 1000 ∧
    (setSendCodec calcBitrate regOk st fmt w h).st.bitrate.maxBps
        = 2 * (setSendCodec calcBitrate regOk st fmt w h).st.bitrate.startBps ∧
    (setSendCodec calcBitrate regOk st fmt w h).st.bitrate.minBps
        = targetKbpsOf calcBitrate fmt w h / 4 * 1000 := by
  cases fmt <;>
    simp_all [setSendCodec, targetKbpsOf, isSupported, TRANSMISSION_MAXBITRATE_MULTIPLIER] <;>
    ring

/-- C5 witness: VP8 at 1280x720 with a concrete estimator. -/
theorem setSendCodec_bitrate_bounds_witness :
    isSupported FrameFormat.FRAME_FORMAT_VP8 = true ∧
    ((setSendCodec (fun w h => w * h / 1000) true (initialState 0)
        FrameFormat.FRAME_FORMAT_VP8 1280 720).st.bitrate.startBps
      = targetKbpsOf (fun w h => w * h / 1000) FrameFormat.FRAME_FORMAT_VP8 1280 720 * 1000 ∧
    (setSendCodec (fun w h => w * h / 1000) true (initialState 0)
        FrameFormat.FRAME_FORMAT_VP8 1280 720).st.bitrate.maxBps
      = 2 * (setSendCodec (fun w h => w * h / 1000) true (initialState 0)
        FrameFormat.FRAME_FORMAT_VP8 1280 720).st.bitrate.startBps ∧
    (setSendCodec (fun w h => w * h / 1000) true (initialState 0)
        FrameFormat.FRAME_FORMAT_VP8 1280 720).st.bitrate.minBps
      = targetKbpsOf (fun w h => w * h / 1000) FrameFormat.FRAME_FORMAT_VP8 1280 720 / 4 * 1000) :=
  ⟨rfl, setSendCodec_bitrate_bounds _ _ _ _ _ _ rfl⟩

/-- C9: when the RTP engine rejects the payload registration for a supported
format, `setSendCodec` returns false, but the bitrate controller's bounds
have already been set to the newly computed values and the registration was
attempted: the failure is not atomic with respect to bitrate state. -/
theorem setSendCodec_reject_still_updates_bitrate (calcBitrate : Nat → Nat → Nat)
    (st : PacketizerState) (fmt : FrameFormat) (w h : Nat)
    (hs : isSupported fmt = true) :
    (setSendCodec calcBitrate false st fmt w h).ret = false ∧
    (setSendCodec calcBitrate false st fmt w h).st.bitrate =
      { startBps := targetKbpsOf calcBitrate fmt w h * 1000
        minBps := targetKbpsOf calcBitrate fmt w h / 4 * 1000
        maxBps := 2 * targetKbpsOf calcBitrate fmt w h * 1000 } ∧
    Event.RegisterSendPayload fmt ∈ (setSendCodec calcBitrate false st fmt w h).evs := by
  cases fmt <;>
    simp_all [setSendCodec, targetKbpsOf, isSupported, TRANSMISSION_MAXBITRATE_MULTIPLIER]

/-- C9 witness: a rejected H264 registration at 640x480. -/
theorem setSendCodec_reject_still_updates_bitrate_witness :
    isSupported FrameFormat.FRAME_FORMAT_H264 = true ∧
    ((setSendCodec (fun _ _ => 800) false (initialState 0)
        FrameFormat.FRAME_FORMAT_H264 640 480).ret = false ∧
    (setSendCodec (fun _ _ => 800) false (initialState 0)
        FrameFormat.FRAME_FORMAT_H264 640 480).st.bitrate =
      { startBps := targetKbpsOf (fun _ _ => 800) FrameFormat.FRAME_FORMAT_H264 640 480 * 1000
        minBps := targetKbpsOf (fun _ _ => 800) FrameFormat.FRAME_FORMAT_H264 640 480 / 4 * 1000
        maxBps := 2 * targetKbpsOf (fun _ _ => 800) FrameFormat.FRAME_FORMAT_H264 640 480 * 1000 } ∧
    Event.RegisterSendPayload FrameFormat.FRAME_FORMAT_H264 ∈
      (setSendCodec (fun _ _ => 800) false (initialState 0)
        FrameFormat.FRAME_FORMAT_H264 640 480).evs) :=
  ⟨rfl, setSendCodec_reject_still_updates_bitrate _ _ _ _ _ rfl⟩

end VideoFramePacketizer

namespace VideoFramePacketizer

/-- C2 counterexample: a malformed H264 payload (no start code, so the NAL
scan fails) is nevertheless passed to the RTP engine's send call, with the
partially built (here empty) fragmentation map — refuting the claim that a
scan failure drops the frame with no send. -/
theorem scan_failure_still_sends_counterexample :
    (scanNALUs [171]).2 = true ∧
    (onFrame (fun _ _ => 1000) true
      { m_enabled := true, m_keyFrameArrived := false,
        m_frameFormat := FrameFormat.FRAME_FORMAT_H264, m_frameWidth := 640,
        m_frameHeight := 480, videoSink_ := none,
        bitrate := { startBps := 300000, minBps := 0, maxBps := 0 }, ssrc := 0 }
      { format := FrameFormat.FRAME_FORMAT_H264, payload := [171], timeStamp := 90,
        isKeyFrame := true, width := 640, height := 480 }).2
      = [Event.SendOutgoingData H264_90000_PT 90 1 1 (some [])] := by
  decide

/-- C2 amended: when the NAL scan of an H264 or H265 frame fails, the scan
loop stops early, but the frame is still passed to the RTP engine's send
call — with the format's payload type and the fragmentation entries
accumulated before the failure. -/
theorem onFrame_scan_failure_still_sends (calcBitrate : Nat → Nat → Nat) (regOk : Bool)
    (st : PacketizerState) (frame : Frame)
    (hen : st.m_enabled = true)
    (hgate : st.m_keyFrameArrived = true ∨ frame.isKeyFrame = true)
    (hfmt : frame.format = FrameFormat.FRAME_FORMAT_H264
      ∨ frame.format = FrameFormat.FRAME_FORMAT_H265)
    (_hscan : (scanNALUs frame.payload).2 = true) :
    Event.SendOutgoingData
        (if frame.format = FrameFormat.FRAME_FORMAT_H264
         then H264_90000_PT else H265_90000_PT)
        frame.timeStamp (frame.timeStamp / 90)
        frame.payload.length (some (scanNALUs frame.payload).1)
      ∈ (onFrame calcBitrate regOk st frame).2 := by
  rcases hfmt with hf | hf <;> rcases hgate with hg | hg <;>
    simp [onFrame, hen, hg, hf]

/-- C2 amended witness: the malformed single-byte payload on an H265 frame. -/
theorem onFrame_scan_failure_still_sends_witness :
    (scanNALUs [171]).2 = true ∧
    Event.SendOutgoingData
        (if (FrameFormat.FRAME_FORMAT_H265 : FrameFormat) = FrameFormat.FRAME_FORMAT_H264
         then H264_90000_PT else H265_90000_PT)
        90 1 1 (some (scanNALUs [171]).1)
      ∈ (onFrame (fun _ _ => 1000) true
        { m_enabled := true, m_keyFrameArrived := true,
          m_frameFormat := FrameFormat.FRAME_FORMAT_H265, m_frameWidth := 640,
          m_frameHeight := 480, videoSink_ := none,
          bitrate := { startBps := 300000, minBps := 0, maxBps := 0 }, ssrc := 0 }
        { format := FrameFormat.FRAME_FORMAT_H265, payload := [171], timeStamp := 90,
          isKeyFrame := false, width := 640, height := 480 }).2 :=
  ⟨by decide,
    onFrame_scan_failure_still_sends _ _ _ _ rfl (Or.inl rfl) (Or.inr rfl) (by decide)⟩

/-- C4 counterexample: with H264 cached as the input format, calling
`setSendCodec` with VP8 (a mismatched format) is not rejected — it returns
true (with an accepting engine) and changes the bitrate controller state —
refuting the claim that a mismatched call returns false with no state
change. -/
theorem setSendCodec_mismatch_counterexample :
    FrameFormat.FRAME_FORMAT_VP8
        ≠ ({ initialState 0 with m_frameFormat := FrameFormat.FRAME_FORMAT_H264 }
            : PacketizerState).m_frameFormat ∧
    (setSendCodec (fun _ _ => 1000) true
      { initialState 0 with m_frameFormat := FrameFormat.FRAME_FORMAT_H264 }
      FrameFormat.FRAME_FORMAT_VP8 640 480).ret = true ∧
    (setSendCodec (fun _ _ => 1000) true
      { initialState 0 with m_frameFormat := FrameFormat.FRAME_FORMAT_H264 }
      FrameFormat.FRAME_FORMAT_VP8 640 480).st
      ≠ { initialState 0 with m_frameFormat := FrameFormat.FRAME_FORMAT_H264 } := by
  decide

/-- C4 amended: a requested format that differs from the cached input format
only falsifies the debug-time `assert` (compiled out under NDEBUG); the call
is not rejected at runtime: for a supported format the bitrate controller
bounds are recomputed and pushed, registration is attempted, and the return
value depends only on the engine's registration response, not on the
mismatch. -/
theorem setSendCodec_mismatch_not_rejected (calcBitrate : Nat → Nat → Nat) (regOk : Bool)
    (st : PacketizerState) (fmt : FrameFormat) (w h : Nat)
    (hne : fmt ≠ st.m_frameFormat) (hs : isSupported fmt = true) :
    (setSendCodec calcBitrate regOk st fmt w h).assertOk = false ∧
    (setSendCodec calcBitrate regOk st fmt w h).ret = regOk ∧
    (setSendCodec calcBitrate regOk st fmt w h).st.bitrate =
      { startBps := targetKbpsOf calcBitrate fmt w h * 1000
        minBps := targetKbpsOf calcBitrate fmt w h / 4 * 1000
        maxBps := 2 * targetKbpsOf calcBitrate fmt w h * 1000 } ∧
    Event.RegisterSendPayload fmt ∈ (setSendCodec calcBitrate regOk st fmt w h).evs := by
  cases fmt <;>
    simp_all [setSendCodec, targetKbpsOf, isSupported, TRANSMISSION_MAXBITRATE_MULTIPLIER]

/-- C4 amended witness: the H264-cached state with a VP8 request. -/
theorem setSendCodec_mismatch_not_rejected_witness :
    FrameFormat.FRAME_FORMAT_VP8
        ≠ ({ initialState 0 with m_frameFormat := FrameFormat.FRAME_FORMAT_H264 }
            : PacketizerState).m_frameFormat ∧
    isSupported FrameFormat.FRAME_FORMAT_VP8 = true ∧
    ((setSendCodec (fun _ _ => 1000) true
        { initialState 0 with m_frameFormat := FrameFormat.FRAME_FORMAT_H264 }
        FrameFormat.FRAME_FORMAT_VP8 640 480).assertOk = false ∧
    (setSendCodec (fun _ _ => 1000) true
        { initialState 0 with m_frameFormat := FrameFormat.FRAME_FORMAT_H264 }
        FrameFormat.FRAME_FORMAT_VP8 640 480).ret = true ∧
    (setSendCodec (fun _ _ => 1000) true
        { initialState 0 with m_frameFormat := FrameFormat.FRAME_FORMAT_H264 }
        FrameFormat.FRAME_FORMAT_VP8 640 480).st.bitrate =
      { startBps := targetKbpsOf (fun _ _ => 1000) FrameFormat.FRAME_FORMAT_VP8 640 480 * 1000
        minBps := targetKbpsOf (fun _ _ => 1000) FrameFormat.FRAME_FORMAT_VP8 640 480 / 4 * 1000
        maxBps := 2 * targetKbpsOf (fun _ _ => 1000) FrameFormat.FRAME_FORMAT_VP8 640 480 * 1000 } ∧
    Event.RegisterSendPayload FrameFormat.FRAME_FORMAT_VP8 ∈
      (setSendCodec (fun _ _ => 1000) true
        { initialState 0 with m_frameFormat := FrameFormat.FRAME_FORMAT_H264 }
        FrameFormat.FRAME_FORMAT_VP8 640 480).evs) :=
  ⟨by decide, rfl, setSendCodec_mismatch_not_rejected _ _ _ _ _ _ (by decide) rfl⟩

/-- C8: a frame that passes the key-frame gate but whose format is none of
VP8, VP9, H264, H265 is silently dropped — no send, no feedback, no bitrate
change — yet the codec-state cache ends up holding the frame's format,
width, and height. -/
theorem onFrame_unsupported_silent_drop (calcBitrate : Nat → Nat → Nat) (regOk : Bool)
    (st : PacketizerState) (frame : Frame)
    (hen : st.m_enabled = true)
    (hgate : st.m_keyFrameArrived = true ∨ frame.isKeyFrame = true)
    (hun : isSupported frame.format = false) :
    (onFrame calcBitrate regOk st frame).2 = [] ∧
    (onFrame calcBitrate regOk st frame).1.m_frameFormat = frame.format ∧
    (onFrame calcBitrate regOk st frame).1.m_frameWidth = frame.width ∧
    (onFrame calcBitrate regOk st frame).1.m_frameHeight = frame.height ∧
    (onFrame calcBitrate regOk st frame).1.bitrate = st.bitrate := by
  have hf : frame.format = FrameFormat.FRAME_FORMAT_UNKNOWN
      ∨ frame.format = FrameFormat.FRAME_FORMAT_I420 := by
    cases h : frame.format <;> simp_all [isSupported]
  rcases hgate with hg | hg <;> rcases hf with hf | hf <;>
    simp [onFrame, hen, hg, hf, setSendCodec] <;>
    (repeat' split) <;> simp_all

/-- C8 witness: an I420 key frame on a fresh instance. -/
theorem onFrame_unsupported_silent_drop_witness :
    (initialState 5).m_enabled = true ∧
    isSupported FrameFormat.FRAME_FORMAT_I420 = false ∧
    ((onFrame (fun _ _ => 700) true (initialState 5)
        { format := FrameFormat.FRAME_FORMAT_I420, payload := [1, 2], timeStamp := 0,
          isKeyFrame := true, width := 320, height := 240 }).2 = [] ∧
    (onFrame (fun _ _ => 700) true (initialState 5)
        { format := FrameFormat.FRAME_FORMAT_I420, payload := [1, 2], timeStamp := 0,
          isKeyFrame := true, width := 320, height := 240 }).1.m_frameFormat
        = FrameFormat.FRAME_FORMAT_I420 ∧
    (onFrame (fun _ _ => 700) true (initialState 5)
        { format := FrameFormat.FRAME_FORMAT_I420, payload := [1, 2], timeStamp := 0,
          isKeyFrame := true, width := 320, height := 240 }).1.m_frameWidth = 320 ∧
    (onFrame (fun _ _ => 700) true (initialState 5)
        { format := FrameFormat.FRAME_FORMAT_I420, payload := [1, 2], timeStamp := 0,
          isKeyFrame := true, width := 320, height := 240 }).1.m_frameHeight = 240 ∧
    (onFrame (fun _ _ => 700) true (initialState 5)
        { format := FrameFormat.FRAME_FORMAT_I420, payload := [1, 2], timeStamp := 0,
          isKeyFrame := true, width := 320, height := 240 }).1.bitrate
        = (initialState 5).bitrate) :=
  ⟨rfl, rfl, onFrame_unsupported_silent_drop _ _ _ _ rfl (Or.inr rfl) rfl⟩

end VideoFramePacketizer

namespace VideoFramePacketizer

/-- `setSendCodec` never touches the key-frame gate. -/
theorem setSendCodec_preserves_keyFrameArrived (calcBitrate : Nat → Nat → Nat)
    (regOk : Bool) (st : PacketizerState) (fmt : FrameFormat) (w h : Nat) :
    (setSendCodec calcBitrate regOk st fmt w h).st.m_keyFrameArrived
      = st.m_keyFrameArrived := by
  cases fmt <;> rfl

/-- Once the gate is open, `onFrame` keeps it open. -/
theorem onFrame_keyFrameArrived_mono (calcBitrate : Nat → Nat → Nat) (regOk : Bool)
    (st : PacketizerState) (frame : Frame)
    (h : st.m_keyFrameArrived = true) :
    (onFrame calcBitrate regOk st frame).1.m_keyFrameArrived = true := by
  cases frame
  simp [onFrame, h, setSendCodec_preserves_keyFrameArrived]
  (repeat' split) <;>
    simp_all [setSendCodec_preserves_keyFrameArrived]

/-- Every operation preserves an open key-frame gate. -/
theorem stepOp_keyFrameArrived_mono (calcBitrate : Nat → Nat → Nat)
    (st : PacketizerState) (op : Op)
    (h : st.m_keyFrameArrived = true) :
    (stepOp calcBitrate st op).m_keyFrameArrived = true := by
  cases op <;>
    simp [stepOp, enable, close, unbindTransport, bindTransport,
      setSendCodec_preserves_keyFrameArrived, onFrame_keyFrameArrived_mono, h] <;>
    (repeat' split) <;> simp_all

/-- C3: the key-frame gate is irreversible: once `m_keyFrameArrived` is
true, no sequence of subsequent operations — frames with `isKeyFrame=false`
included — ever makes it false again; only a freshly constructed instance
starts with the gate closed. -/
theorem keyFrameArrived_irreversible (calcBitrate : Nat → Nat → Nat)
    (ops : List Op) (st : PacketizerState) (ssrc : Nat)
    (h : st.m_keyFrameArrived = true) :
    (run calcBitrate st ops).m_keyFrameArrived = true ∧
    (initialState ssrc).m_keyFrameArrived = false := by
  refine ⟨?_, rfl⟩
  induction ops generalizing st with
  | nil => simpa [run] using h
  | cons op rest ih =>
      simp only [run, List.foldl_cons]
      exact ih (stepOp calcBitrate st op) (stepOp_keyFrameArrived_mono calcBitrate st op h)

/-- C3 witness: gate open, then a non-key frame, an unbind, and a disable. -/
theorem keyFrameArrived_irreversible_witness :
    ({ initialState 3 with m_keyFrameArrived := true } : PacketizerState).m_keyFrameArrived
        = true ∧
    ((run (fun _ _ => 400) { initialState 3 with m_keyFrameArrived := true }
      [Op.opOnFrame
          { format := FrameFormat.FRAME_FORMAT_VP8, payload := [1], timeStamp := 0,
            isKeyFrame := false, width := 320, height := 240 } true,
       Op.opUnbindTransport, Op.opEnable false]).m_keyFrameArrived = true ∧
     (initialState 3).m_keyFrameArrived = false) :=
  ⟨rfl, keyFrameArrived_irreversible (fun _ _ => 400) _ _ 3 rfl⟩

end VideoFramePacketizer
